import Mathlib

/-!
Verification of the test-harness orchestrator in `scripts/test.py`,
`scripts/progress_bar.py` and `scripts/junit_xml_file.py`.

The Python code is shallowly embedded: file paths become `PyPath`
(directory components plus base name), `subprocess.run` results become
`RunResult`, the tuples placed on `log_queue` become `Msg`, and the
sequence of strings written to the JUnit XML report file becomes a
`List String`.  The functions `fail_testcase`, `run_test`,
`empty_log_queue` and `main` of `test.py` are translated one to one;
the sequential scheduling loop of `main` is `runLoop`/`mainRun`.
-/

/-- Python `str.replace(pat, rep)` on explicit character lists: scan left
to right, replace each non-overlapping occurrence of `pat` by `rep`, and
skip past the matched occurrence.  `skip` counts characters of a
just-matched occurrence that still have to be consumed (this keeps the
recursion structural on the string).  The script only uses the non-empty
pattern `"_driver"`. -/
def pyReplaceAux (pat rep : List Char) : Nat → List Char → List Char
  | _ + 1, [] => []
  | skip + 1, _ :: cs => pyReplaceAux pat rep skip cs
  | 0, [] => []
  | 0, c :: cs =>
    if pat.isPrefixOf (c :: cs) then
      rep ++ pyReplaceAux pat rep (pat.length - 1) cs
    else
      c :: pyReplaceAux pat rep 0 cs

/-- Python `str.replace(pat, rep)` for a non-empty `pat`. -/
def pyReplace (pat rep s : List Char) : List Char :=
  pyReplaceAux pat rep 0 s

/-- From `pathlib.PurePath.stem`: the base name without its final suffix; the
suffix is the part after the last `.` provided that dot is neither the
first nor the last character of the name. -/
def pathStem (base : String) : String :=
  let rev := base.data.reverse
  let sfx := rev.takeWhile (fun c => c ≠ '.')
  match rev.dropWhile (fun c => c ≠ '.') with
  | [] => base
  | _ :: rrest => if sfx = [] ∨ rrest = [] then base else ⟨rrest.reverse⟩

/-- From `test.py` line 77: `new_name = driver.stem.replace("_driver", "") + ".c"`. -/
def new_name (stem : String) : String :=
  (⟨pyReplace "_driver".data [] stem.data⟩ : String) ++ ".c"

/-- A file path, relative to the project root: directory components and
base name.  `rglob` enumeration and the sort key only ever inspect the
immediate parent directory name and the base name. -/
structure PyPath where
  dirs : List String
  base : String
deriving DecidableEq, Repr

/-- From `p.parent.name`: the name of the immediate parent directory
(empty for a path with no parent components). -/
def parentName (p : PyPath) : String :=
  p.dirs.getLast?.getD ""

/-- From `test.py` line 179: `rglob("*_driver.c")` keeps exactly the files whose
base name ends in `_driver.c`. -/
def matchesDriverName (base : String) : Bool :=
  "_driver.c".data.isSuffixOf base.data

/-- The sort key of `test.py` line 180: `(p.parent.name, p.name)`. -/
def pathKey (p : PyPath) : String × String :=
  (parentName p, p.base)

/-- Python tuple comparison of the sort keys: lexicographic on
`(parent.name, name)`, with strings compared lexicographically by code
point (Python string comparison), expressed on the character lists. -/
def pathLe (p q : PyPath) : Prop :=
  (parentName p).data < (parentName q).data
  ∨ ((parentName p).data = (parentName q).data ∧ p.base.data ≤ q.base.data)

instance : DecidableRel pathLe := fun p q => by
  unfold pathLe
  infer_instance

instance : IsTotal PyPath pathLe := by
  constructor
  intro a b
  rcases lt_trichotomy (parentName a).data (parentName b).data with h | h | h
  · exact Or.inl (Or.inl h)
  · rcases le_total a.base.data b.base.data with hb | hb
    · exact Or.inl (Or.inr ⟨h, hb⟩)
    · exact Or.inr (Or.inr ⟨h.symm, hb⟩)
  · exact Or.inr (Or.inl h)

instance : IsTrans PyPath pathLe := by
  constructor
  intro a b c hab hbc
  rcases hab with h1 | ⟨h1, h1'⟩
  · rcases hbc with h2 | ⟨h2, _⟩
    · exact Or.inl (h1.trans h2)
    · exact Or.inl (h2 ▸ h1)
  · rcases hbc with h2 | ⟨h2, h2'⟩
    · exact Or.inl (h1 ▸ h2)
    · exact Or.inr ⟨h1.trans h2, h1'.trans h2'⟩

/-- From `test.py` lines 179-180: enumerate the files under the root in
filesystem order (`fsFiles`), keep the `*_driver.c` ones, and sort them
(stably, as Python `sorted`) by `(parent.name, name)`. -/
def discoverDrivers (fsFiles : List PyPath) : List PyPath :=
  List.insertionSort pathLe (fsFiles.filter (fun p => matchesDriverName p.base))

/-- The result of `subprocess.run(..., capture_output=True, text=True)`:
exit status plus the separately captured stdout and stderr streams. -/
structure RunResult where
  returncode : Int
  stdout : String
  stderr : String
deriving DecidableEq, Repr

/-- One tuple placed on `log_queue`: the text for the terminal, the text
appended to the JUnit XML file, and the pass flag. -/
structure Msg where
  printMsg : String
  xmlMsg : String
  passed : Bool
deriving DecidableEq, Repr

/-- From `test.py` lines 77-80: the reported subject path of a driver, i.e.
`relpath(driver.parent / new_name, PROJECT_LOCATION)` rendered with `/`
separators. -/
def relName (d : PyPath) : String :=
  String.intercalate "/" (d.dirs ++ [new_name (pathStem d.base)])

/-- From `test.py` lines 79-80: the `(stdout text, xml text)` pair opening a
test-case record. -/
def initMessage (d : PyPath) : String × String :=
  (relName d ++ "\n", "<testcase name=\"" ++ relName d ++ "\">\n")

/-- From `test.py` lines 45-65, `fail_testcase`: build the failing record; the
diagnostic `message` is interpolated verbatim into both the `message`
attribute and the element body. -/
def fail_testcase (init_message : String × String) (message : String) : Msg :=
  { printMsg := init_message.1 ++ message
    xmlMsg := init_message.2 ++
      ("<error type=\"error\" message=\"" ++ message ++ "\">" ++ message ++
        "</error>\n" ++ "</testcase>\n")
    passed := false }

/-- From `test.py` lines 68-107, `run_test`: put exactly one message on the
queue and return the pass flag.  `result` is what `subprocess.run`
returned for the `test_single.sh` collaborator. -/
def run_test (d : PyPath) (result : RunResult) : Msg × Bool :=
  if result.returncode ≠ 0 then
    (fail_testcase (initMessage d) result.stdout, false)
  else
    ({ printMsg := (initMessage d).1 ++ "\t> Pass\n"
       xmlMsg := (initMessage d).2 ++ "</testcase>\n"
       passed := true }, true)

/-- From `progress_bar.py`: the `ProgressBar` state — the counters `total_tests`,
`passed`, `failed` set up by `__init__(total_tests)`. -/
structure ProgressBar where
  total_tests : Nat
  passed : Nat
  failed : Nat
deriving DecidableEq, Repr

/-- From `progress_bar.py` lines 64-69, `update_with_value(passed)`: increment
exactly one counter, then re-render via `update()` (which changes no
state). -/
def ProgressBar.update_with_value (pb : ProgressBar) (passed : Bool) : ProgressBar :=
  if passed then
    { pb with passed := pb.passed + 1 }
  else
    { pb with failed := pb.failed + 1 }

/-- From `progress_bar.py` line 36, in `update()`:
`remaining_tests = self.total_tests - (self.passed + self.failed)`
(a Python `int`, so it may go negative). -/
def ProgressBar.remainingTests (pb : ProgressBar) : Int :=
  (pb.total_tests : Int) - ((pb.passed : Int) + (pb.failed : Int))

/-- Python attribute lookup for zero-argument bound methods on a
`ProgressBar` instance.  The class in `progress_bar.py` defines
`__init__(self, total_tests)`, `update(self)` and
`update_with_value(self, passed)`; the only zero-argument method is
`update`, which prints but leaves the counters unchanged.  In particular
no attribute named `test_passed` or `test_failed` exists, so looking
either up yields `none` (an `AttributeError` at run time). -/
def ProgressBar.lookupNoArgMethod (name : String) : Option (ProgressBar → ProgressBar) :=
  if name = "update" then some (fun pb => pb) else none

/-- The message of the `AttributeError` raised when `test.py` calls the
missing method (`b` is the pass flag that selects which name is used). -/
def attrError (b : Bool) : String :=
  "AttributeError: ProgressBar object has no attribute " ++
    (if b then "test_passed" else "test_failed")

/-- Result of draining the log queue: the strings appended to the JUnit
XML file (in order), the progress-bar state afterwards, and the uncaught
exception, if one was raised. -/
structure DrainResult where
  writes : List String
  bar : Option ProgressBar
  err : Option String
deriving Repr

/-- From `test.py` lines 110-131, `empty_log_queue`: for each queued message,
append its XML text to the report file; in verbose mode just print and
continue; otherwise, if a progress bar exists, call
`progress_bar.test_passed()` or `progress_bar.test_failed()` — an
attribute lookup that fails, raising `AttributeError` and leaving the
rest of the queue unprocessed. -/
def empty_log_queue (msgs : List Msg) (verbose : Bool)
    (progress_bar : Option ProgressBar) : DrainResult :=
  match msgs with
  | [] => ⟨[], progress_bar, none⟩
  | m :: ms =>
    if verbose then
      let r := empty_log_queue ms verbose progress_bar
      ⟨m.xmlMsg :: r.writes, r.bar, r.err⟩
    else
      match progress_bar with
      | none =>
        let r := empty_log_queue ms verbose none
        ⟨m.xmlMsg :: r.writes, r.bar, r.err⟩
      | some pb =>
        match ProgressBar.lookupNoArgMethod
            (if m.passed then "test_passed" else "test_failed") with
        | some f =>
          let r := empty_log_queue ms verbose (some (f pb))
          ⟨m.xmlMsg :: r.writes, r.bar, r.err⟩
        | none => ⟨[m.xmlMsg], some pb, some (attrError m.passed)⟩

/-- State threaded through the scheduling loop of `main` (`test.py` lines
200-204): consumed messages, collected `run_test` results, report-file
writes, progress-bar state, and the uncaught exception if one occurred. -/
structure LoopResult where
  msgs : List Msg
  results : List Bool
  writes : List String
  bar : Option ProgressBar
  err : Option String

/-- From `test.py` lines 200-204 (sequential mode): for each driver run
`run_test`, append its result, then drain the queue (which holds exactly
the one message `run_test` enqueued).  An exception raised while
draining aborts the loop.  The concurrent branch (lines 191-198) does
the same per-driver work in completion order, so a run of it is this
loop on a permutation of the driver list. -/
def runLoop (execF : PyPath → RunResult) (verbose : Bool) :
    List PyPath → Option ProgressBar → LoopResult
  | [], bar => ⟨[], [], [], bar, none⟩
  | d :: ds, bar =>
    let mr := run_test d (execF d)
    let e := empty_log_queue [mr.1] verbose bar
    match e.err with
    | some s => ⟨[mr.1], [mr.2], e.writes, e.bar, some s⟩
    | none =>
      let rest := runLoop execF verbose ds e.bar
      ⟨mr.1 :: rest.msgs, mr.2 :: rest.results, e.writes ++ rest.writes,
        rest.bar, rest.err⟩

/-- From `test.py` line 176. -/
def xmlDeclLine : String := "<?xml version=\"1.0\" encoding=\"UTF-8\"?>\n"

/-- From `test.py` line 177: the opening tag of the root container. -/
def rootOpenLine : String := "<testsuite name=\"Integration test\">\n"

/-- From `test.py` line 210: the closing tag of the root container. -/
def rootCloseLine : String := "</testsuite>\n"

/-- From `test.py` lines 212-213: the final summary line
(`"\n>> Test Summary: {} Passed, {} Failed"`). -/
def summaryLine (p f : Nat) : String :=
  "\n>> Test Summary: " ++ toString p ++ " Passed, " ++ toString f ++ " Failed"

/-- The inputs of one `main()` run (`test.py` lines 134-213): the
filesystem enumeration under `args.dir`, the behaviour of the
`test_single.sh` collaborator, the exit status of the `make` build step,
whether stdout is a terminal, the `-v` flag, and whether preparing
`bin/output` raises. -/
structure MainInput where
  fsFiles : List PyPath
  execF : PyPath → RunResult
  makeExit : Int
  isatty : Bool
  verboseFlag : Bool
  mkdirFails : Bool

/-- The observable outcome of a `main()` run: the sequence of strings
written to the JUnit XML file, the messages consumed from the queue, the
collected `run_test` results, the printed summary line (if reached), and
whether the process exited with status 0. -/
structure MainOutcome where
  xmlWrites : List String
  msgs : List Msg
  results : List Bool
  summary : Option String
  exitOk : Bool

/-- From `test.py` lines 134-213, `main()` (sequential mode): prepare the
output directory (if that raises, the process dies before anything is
written); run `make` — whose exit status `makeExit` is never read;
write the XML header and root opening tag; discover and sort the
drivers; create a progress bar iff stdout is a terminal, forcing verbose
mode otherwise; run the loop; and on normal completion write the root
closing tag and print the summary.  An exception escaping the loop
skips the closing tag and the summary and makes the process exit
nonzero. -/
def mainRun (inp : MainInput) : MainOutcome :=
  if inp.mkdirFails then ⟨[], [], [], none, false⟩
  else
    let ds := discoverDrivers inp.fsFiles
    let verbose := inp.verboseFlag || !inp.isatty
    let bar0 := if inp.isatty then some (ProgressBar.mk ds.length 0 0) else none
    let lr := runLoop inp.execF verbose ds bar0
    match lr.err with
    | some _ =>
      ⟨xmlDeclLine :: rootOpenLine :: lr.writes, lr.msgs, lr.results, none, false⟩
    | none =>
      let passing := lr.results.count true
      let total := ds.length
      ⟨xmlDeclLine :: rootOpenLine :: lr.writes ++ [rootCloseLine], lr.msgs,
        lr.results, some (summaryLine passing (total - passing)), true⟩

/-- The sorted driver list a run works through. -/
def driversOf (inp : MainInput) : List PyPath :=
  discoverDrivers inp.fsFiles

/-- The messages a full run enqueues, in driver order. -/
def msgsOf (inp : MainInput) : List Msg :=
  (driversOf inp).map (fun d => (run_test d (inp.execF d)).1)

/-- The booleans `run_test` returns over a full run, in driver order. -/
def resultsOf (inp : MainInput) : List Bool :=
  (driversOf inp).map (fun d => (run_test d (inp.execF d)).2)

/-- Claim variant of `run_test`, following the wording of the spec in §6
("combined stdout/stderr is the diagnostic text for a failing run"). -/
def runTestCombinedSpec (d : PyPath) (result : RunResult) : Msg × Bool :=
  if result.returncode ≠ 0 then
    (fail_testcase (initMessage d) (result.stdout ++ result.stderr), false)
  else
    run_test d result

/-- Claim variant of the final summary, following the wording of the spec in §7:
`"P Passed, F Failed, T Total"`. -/
def summaryLineClaim (p f t : Nat) : String :=
  "\n>> Test Summary: " ++ toString p ++ " Passed, " ++ toString f ++
    " Failed, " ++ toString t ++ " Total"

/-- Example driver files for concrete runs. -/
def exDriver1 : PyPath := ⟨["compiler_tests", "t1"], "a_driver.c"⟩

def exDriver2 : PyPath := ⟨["compiler_tests", "t2"], "b_driver.c"⟩

def exDriver3 : PyPath := ⟨["compiler_tests", "t3"], "c_driver.c"⟩

/-- A collaborator that fails exactly the second driver. -/
def exExec : PyPath → RunResult := fun p =>
  if p.base = "b_driver.c" then ⟨1, "assertion failed\n", "noise on stderr\n"⟩
  else ⟨0, "", ""⟩

/-- A non-interactive run (stdout not a terminal) over the three example
drivers: outcomes pass, fail, pass. -/
def normalInput : MainInput :=
  { fsFiles := [exDriver1, exDriver2, exDriver3], execF := exExec,
    makeExit := 0, isatty := false, verboseFlag := false, mkdirFails := false }

/-- The same run with the build step exiting nonzero. -/
def buildFailInput : MainInput :=
  { fsFiles := [exDriver1, exDriver2, exDriver3], execF := exExec,
    makeExit := 2, isatty := false, verboseFlag := false, mkdirFails := false }

/-- An interactive run (stdout a terminal, no `-v`) over one passing driver. -/
def interactiveInput : MainInput :=
  { fsFiles := [exDriver1], execF := fun _ => ⟨0, "", ""⟩,
    makeExit := 0, isatty := true, verboseFlag := false, mkdirFails := false }

/-- A run where preparing `bin/output` raises. -/
def mkdirFailInput : MainInput :=
  { fsFiles := [exDriver1], execF := fun _ => ⟨0, "", ""⟩,
    makeExit := 0, isatty := false, verboseFlag := false, mkdirFails := true }

/-- Two driver files in *different* directories that share the same
`(parent-directory name, file name)` sort key. -/
def tiePathA : PyPath := ⟨["tests_a", "x"], "t_driver.c"⟩

/-- See `tiePathA`. -/
def tiePathB : PyPath := ⟨["tests_b", "x"], "t_driver.c"⟩

/-- Two driver files with distinct sort keys. -/
def keyPathA : PyPath := ⟨["tests", "m"], "s_driver.c"⟩

/-- See `keyPathA`. -/
def keyPathB : PyPath := ⟨["tests", "n"], "t_driver.c"⟩


/-- Whether `pat` occurs as a contiguous subsequence of `s` (used to
state that a string does not mention a word). -/
def containsSeq (pat : List Char) : List Char → Bool
  | [] => pat.isEmpty
  | c :: cs => pat.isPrefixOf (c :: cs) || containsSeq pat cs

/-- Escaping of one character for XML text and attribute content,
modelled from the wording of the spec in §4.5/§8 ("angle brackets, ampersand,
quotes ... must be escaped"). -/
def escapeChar (c : Char) : List Char :=
  if c = '<' then "&lt;".data
  else if c = '>' then "&gt;".data
  else if c = '&' then "&amp;".data
  else if c = '"' then "&quot;".data
  else [c]

/-- The reserved markup characters named by the spec. -/
def isReservedChar (c : Char) : Bool :=
  c == '<' || c == '>' || c == '&' || c == '"'

/-- Claim variant, following the wording of the spec: the diagnostic text with
reserved markup characters escaped. -/
def specEscape (s : String) : String :=
  ⟨s.data.foldr (fun c acc => escapeChar c ++ acc) []⟩

/-- Claim variant of `fail_testcase`, following the wording of the spec in §4.5:
the serialized failing record carries the *escaped* diagnostic. -/
def failTestcaseEscapedSpec (init_message : String × String) (message : String) : Msg :=
  { printMsg := init_message.1 ++ message
    xmlMsg := init_message.2 ++
      ("<error type=\"error\" message=\"" ++ specEscape message ++ "\">" ++
        specEscape message ++ "</error>\n" ++ "</testcase>\n")
    passed := false }

/-- Two paths below each other in the sort order have equal sort keys. -/
theorem pathLe_antisymm_key {p q : PyPath} (h1 : pathLe p q) (h2 : pathLe q p) :
    pathKey p = pathKey q := by
  rcases h1 with h1 | ⟨h1, h1'⟩
  · rcases h2 with h2 | ⟨h2, _⟩
    · exact absurd h2 (lt_asymm h1)
    · exact absurd (h2 ▸ h1) (lt_irrefl _)
  · rcases h2 with h2 | ⟨h2, h2'⟩
    · exact absurd (h1 ▸ h2) (lt_irrefl _)
    · simp only [pathKey, Prod.mk.injEq]
      exact ⟨String.ext h1, String.ext (le_antisymm h1' h2')⟩

example : new_name (pathStem "example_driver.c") = "example.c" := by decide
example : new_name (pathStem "foo_driver_bar_driver.c") = "foo_bar.c" := by decide
example : matchesDriverName "foo_driver_bar_driver.c" = true := by decide
example : relName ⟨["compiler_tests", "x"], "example_driver.c"⟩ =
    "compiler_tests/x/example.c" := by decide

theorem empty_log_queue_ok (msgs : List Msg) (verbose : Bool)
    (bar : Option ProgressBar) (h : verbose = true ∨ bar = none) :
    empty_log_queue msgs verbose bar = ⟨msgs.map Msg.xmlMsg, bar, none⟩ := by
  induction msgs with
  | nil => simp [empty_log_queue]
  | cons m ms ih =>
    rcases h with h | h
    · subst h
      simp [empty_log_queue, ih]
    · subst h
      cases verbose <;> simp [empty_log_queue, ih]

theorem empty_log_queue_attrErr (m : Msg) (ms : List Msg) (pb : ProgressBar) :
    empty_log_queue (m :: ms) false (some pb) =
      ⟨[m.xmlMsg], some pb, some (attrError m.passed)⟩ := by
  have hl1 : ProgressBar.lookupNoArgMethod "test_passed" = none := rfl
  have hl2 : ProgressBar.lookupNoArgMethod "test_failed" = none := rfl
  cases hm : m.passed <;> simp [empty_log_queue, hm, hl1, hl2]

theorem runLoop_ok (execF : PyPath → RunResult) (verbose : Bool)
    (ds : List PyPath) (bar : Option ProgressBar)
    (h : verbose = true ∨ bar = none) :
    runLoop execF verbose ds bar =
      ⟨ds.map (fun d => (run_test d (execF d)).1),
       ds.map (fun d => (run_test d (execF d)).2),
       ds.map (fun d => (run_test d (execF d)).1.xmlMsg),
       bar, none⟩ := by
  induction ds with
  | nil => simp [runLoop]
  | cons d ds ih =>
    simp [runLoop, empty_log_queue_ok _ _ _ h, ih]

theorem runLoop_attrErr (execF : PyPath → RunResult) (d : PyPath)
    (ds : List PyPath) (pb : ProgressBar) :
    runLoop execF false (d :: ds) (some pb) =
      ⟨[(run_test d (execF d)).1], [(run_test d (execF d)).2],
       [(run_test d (execF d)).1.xmlMsg], some pb,
       some (attrError (run_test d (execF d)).1.passed)⟩ := by
  simp [runLoop, empty_log_queue_attrErr]

/-- Characterization of a run that completes normally: `main` completes
without an exception exactly when the output directory could be prepared
and no interactive progress-bar update was attempted (verbose mode, no
terminal — an interactive run crashes on its first outcome). -/
theorem mainRun_normal (inp : MainInput) (hmk : inp.mkdirFails = false)
    (hv : inp.verboseFlag = true ∨ inp.isatty = false) :
    mainRun inp =
      ⟨xmlDeclLine :: rootOpenLine :: ((msgsOf inp).map Msg.xmlMsg ++ [rootCloseLine]),
       msgsOf inp, resultsOf inp,
       some (summaryLine ((resultsOf inp).count true)
         ((driversOf inp).length - (resultsOf inp).count true)),
       true⟩ := by
  have hverb : (inp.verboseFlag || !inp.isatty) = true := by
    rcases hv with h | h <;> simp [h]
  have h1 := runLoop_ok inp.execF (inp.verboseFlag || !inp.isatty)
      (discoverDrivers inp.fsFiles)
      (if inp.isatty then some (ProgressBar.mk (discoverDrivers inp.fsFiles).length 0 0) else none)
      (Or.inl hverb)
  simp [mainRun, hmk, h1, msgsOf, resultsOf, driversOf]

/-- Characterization of an interactive run with at least one driver: the
first drained outcome raises `AttributeError`, so exactly one record is
written, the root is never closed, no summary is printed, and the
process exits nonzero. -/
theorem mainRun_crash (inp : MainInput) (hmk : inp.mkdirFails = false)
    (ha : inp.isatty = true) (hvf : inp.verboseFlag = false)
    (d : PyPath) (ds : List PyPath)
    (hds : discoverDrivers inp.fsFiles = d :: ds) :
    mainRun inp =
      ⟨[xmlDeclLine, rootOpenLine, (run_test d (inp.execF d)).1.xmlMsg],
       [(run_test d (inp.execF d)).1], [(run_test d (inp.execF d)).2],
       none, false⟩ := by
  have h1 := runLoop_attrErr inp.execF d ds
      (ProgressBar.mk (d :: ds).length 0 0)
  simp only [List.length_cons] at h1
  simp [mainRun, hmk, ha, hvf, hds, h1]

/-- Every run is one of three shapes: normal completion, death before the
report file is opened (output directory), or the interactive
`AttributeError` crash after the first outcome. -/
theorem mainRun_shape (inp : MainInput) :
    (mainRun inp).exitOk = true
    ∨ (mainRun inp = ⟨[], [], [], none, false⟩ ∧ inp.mkdirFails = true)
    ∨ ∃ d ds, discoverDrivers inp.fsFiles = d :: ds ∧
        mainRun inp =
          ⟨[xmlDeclLine, rootOpenLine, (run_test d (inp.execF d)).1.xmlMsg],
           [(run_test d (inp.execF d)).1], [(run_test d (inp.execF d)).2],
           none, false⟩ := by
  by_cases hmk : inp.mkdirFails = true
  · exact Or.inr (Or.inl ⟨by simp [mainRun, hmk], hmk⟩)
  · have hmk' : inp.mkdirFails = false := by simpa using hmk
    by_cases hv : inp.verboseFlag = true ∨ inp.isatty = false
    · exact Or.inl (by rw [mainRun_normal inp hmk' hv])
    · push_neg at hv
      have hvf : inp.verboseFlag = false := by
        have := hv.1
        revert this
        cases inp.verboseFlag <;> simp
      have ha : inp.isatty = true := by
        have := hv.2
        revert this
        cases inp.isatty <;> simp
      cases hds : discoverDrivers inp.fsFiles with
      | nil =>
        refine Or.inl ?_
        simp [mainRun, hmk', hds, runLoop]
      | cons d ds =>
        exact Or.inr (Or.inr ⟨d, ds, rfl, mainRun_crash inp hmk' ha hvf d ds hds⟩)

/-- A run that exits 0 completed normally, and its outcome is fully
determined by the discovered drivers and the collaborator results. -/
theorem mainRun_exitOk_eq (inp : MainInput) (h : (mainRun inp).exitOk = true) :
    mainRun inp =
      ⟨xmlDeclLine :: rootOpenLine :: ((msgsOf inp).map Msg.xmlMsg ++ [rootCloseLine]),
       msgsOf inp, resultsOf inp,
       some (summaryLine ((resultsOf inp).count true)
         ((driversOf inp).length - (resultsOf inp).count true)),
       true⟩ := by
  by_cases hmk : inp.mkdirFails = true
  · simp [mainRun, hmk] at h
  · have hmk' : inp.mkdirFails = false := by simpa using hmk
    by_cases hv : inp.verboseFlag = true ∨ inp.isatty = false
    · exact mainRun_normal inp hmk' hv
    · push_neg at hv
      have hvf : inp.verboseFlag = false := by
        have := hv.1
        revert this
        cases inp.verboseFlag <;> simp
      have ha : inp.isatty = true := by
        have := hv.2
        revert this
        cases inp.isatty <;> simp
      cases hds : discoverDrivers inp.fsFiles with
      | nil =>
        simp [mainRun, hmk', hds, runLoop, msgsOf, resultsOf, driversOf]
      | cons d ds =>
        rw [mainRun_crash inp hmk' ha hvf d ds hds] at h
        simp at h

theorem mainRun_results_length (inp : MainInput) :
    (mainRun inp).results.length ≤ (driversOf inp).length := by
  rcases mainRun_shape inp with h | ⟨h, _⟩ | ⟨d, ds, hds, h⟩
  · rw [mainRun_exitOk_eq inp h]
    simp [resultsOf]
  · simp [h]
  · rw [h]
    simp [driversOf, hds]

theorem count_true_add_count_false (l : List Bool) :
    l.count true + l.count false = l.length := by
  induction l with
  | nil => simp
  | cons b l ih => cases b <;> simp [List.count_cons] <;> omega

theorem run_test_xml_shape (d : PyPath) (r : RunResult) :
    ∃ t, ((run_test d r).1.xmlMsg).data = "<testcase name=\"".data ++ t := by
  by_cases h : r.returncode = 0
  · refine ⟨(relName d).data ++ ("\">\n".data ++ "</testcase>\n".data), ?_⟩
    simp [run_test, h, initMessage, String.data_append, List.append_assoc]
  · refine ⟨(relName d).data ++ ("\">\n".data ++
      ("<error type=\"error\" message=\"" ++ r.stdout ++ "\">" ++ r.stdout ++
        "</error>\n" ++ "</testcase>\n").data), ?_⟩
    simp [run_test, h, fail_testcase, initMessage, String.data_append, List.append_assoc]

theorem testcase_data_ne_open (t : List Char) :
    "<testcase name=\"".data ++ t ≠ rootOpenLine.data := by
  intro h
  have h6 := congrArg (List.take 6) h
  rw [List.take_append_of_le_length (by decide)] at h6
  exact absurd h6 (by decide)

theorem testcase_data_ne_close (t : List Char) :
    "<testcase name=\"".data ++ t ≠ rootCloseLine.data := by
  intro h
  have h2 := congrArg (List.take 2) h
  rw [List.take_append_of_le_length (by decide)] at h2
  exact absurd h2 (by decide)

/-- Every record `run_test` produces is a `<testcase ...>` element: its
text is never the opening or closing tag of the root. -/
theorem run_test_xml_ne_root (d : PyPath) (r : RunResult) :
    (run_test d r).1.xmlMsg ≠ rootOpenLine ∧
    (run_test d r).1.xmlMsg ≠ rootCloseLine := by
  obtain ⟨t, ht⟩ := run_test_xml_shape d r
  constructor <;> intro he <;> rw [he] at ht
  · exact testcase_data_ne_open t ht.symm
  · exact testcase_data_ne_close t ht.symm

theorem count_rootOpen_msgs (inp : MainInput) :
    ((msgsOf inp).map Msg.xmlMsg).count rootOpenLine = 0 := by
  rw [List.count_eq_zero]
  intro hmem
  obtain ⟨m, hm, hxml⟩ := List.mem_map.mp hmem
  obtain ⟨d, _, hd⟩ := List.mem_map.mp hm
  subst hd
  exact (run_test_xml_ne_root d (inp.execF d)).1 hxml

theorem count_rootClose_msgs (inp : MainInput) :
    ((msgsOf inp).map Msg.xmlMsg).count rootCloseLine = 0 := by
  rw [List.count_eq_zero]
  intro hmem
  obtain ⟨m, hm, hxml⟩ := List.mem_map.mp hmem
  obtain ⟨d, _, hd⟩ := List.mem_map.mp hm
  subst hd
  exact (run_test_xml_ne_root d (inp.execF d)).2 hxml

theorem isPrefixOf_self (l : List Char) : l.isPrefixOf l = true := by
  induction l with
  | nil => rfl
  | cons a as ih => simp [List.isPrefixOf, ih]

theorem pyReplaceAux_skip_done (pat rep : List Char) :
    ∀ (l : List Char) (k : Nat), l.length ≤ k → pyReplaceAux pat rep k l = [] := by
  intro l
  induction l with
  | nil =>
    intro k _
    cases k <;> rfl
  | cons c cs ih =>
    intro k hk
    cases k with
    | zero => simp at hk
    | succ k' =>
      show pyReplaceAux pat rep k' cs = []
      exact ih k' (by simpa using hk)

/-- If the pattern occurs nowhere in `s ++ pat` except as the final
occurrence forming the suffix, `str.replace` with empty replacement removes exactly
that suffix. -/
theorem pyReplace_strip_suffix (pat : List Char) (hp : pat ≠ []) :
    ∀ s : List Char,
      (∀ i, i < s.length → pat.isPrefixOf (List.drop i (s ++ pat)) = false) →
      pyReplace pat [] (s ++ pat) = s := by
  intro s
  induction s with
  | nil =>
    intro _
    cases pat with
    | nil => exact absurd rfl hp
    | cons p ps =>
      show pyReplaceAux (p :: ps) [] 0 (p :: ps) = []
      simp only [pyReplaceAux, isPrefixOf_self, if_true, List.nil_append,
        List.length_cons, Nat.succ_sub_one]
      exact pyReplaceAux_skip_done _ _ ps ps.length le_rfl
  | cons c cs ih =>
    intro H
    have h0 : pat.isPrefixOf (c :: (cs ++ pat)) = false := by
      have h := H 0 (by simp)
      simpa using h
    have H' : ∀ i, i < cs.length →
        pat.isPrefixOf (List.drop i (cs ++ pat)) = false := by
      intro i hi
      have h := H (i + 1) (by simp; omega)
      simpa [List.drop_succ_cons] using h
    show pyReplaceAux pat [] 0 (c :: (cs ++ pat)) = c :: cs
    simp only [pyReplaceAux, h0, Bool.false_eq_true, if_false]
    exact congrArg (c :: ·) (ih H')

/-- The report subject name keeps the driver stem with the `_driver`
marker removed from the end, *provided* `_driver` occurs nowhere earlier
in the stem. -/
theorem new_name_strip_end (s : List Char)
    (h : ∀ i, i < s.length →
      "_driver".data.isPrefixOf (List.drop i (s ++ "_driver".data)) = false) :
    new_name ⟨s ++ "_driver".data⟩ = (⟨s⟩ : String) ++ ".c" := by
  have hs := pyReplace_strip_suffix "_driver".data (by decide) s h
  unfold new_name
  rw [show (⟨s ++ "_driver".data⟩ : String).data = s ++ "_driver".data from rfl, hs]

theorem one_le_escapeChar_length (c : Char) : 1 ≤ (escapeChar c).length := by
  unfold escapeChar
  split_ifs <;> first | decide | simp

theorem four_le_escapeChar_length {c : Char} (h : isReservedChar c = true) :
    4 ≤ (escapeChar c).length := by
  simp only [isReservedChar, Bool.or_eq_true, beq_iff_eq] at h
  rcases h with ((h | h) | h) | h <;> subst h <;> decide

theorem length_le_escFold (l : List Char) :
    l.length ≤ (l.foldr (fun c acc => escapeChar c ++ acc) []).length := by
  induction l with
  | nil => simp
  | cons c cs ih =>
    simp only [List.foldr_cons, List.length_append, List.length_cons]
    have := one_le_escapeChar_length c
    omega

theorem length_lt_escFold {l : List Char} (h : l.any isReservedChar = true) :
    l.length < (l.foldr (fun c acc => escapeChar c ++ acc) []).length := by
  induction l with
  | nil => simp at h
  | cons c cs ih =>
    simp only [List.any_cons, Bool.or_eq_true] at h
    simp only [List.foldr_cons, List.length_append, List.length_cons]
    rcases h with h | h
    · have h4 := four_le_escapeChar_length h
      have := length_le_escFold cs
      omega
    · have := ih h
      have h1 := one_le_escapeChar_length c
      omega

/-- Two sorted lists that are permutations of each other and whose sort
keys are pairwise distinct are equal. -/
theorem sorted_eq_of_perm_of_distinct_keys :
    ∀ (l₁ l₂ : List PyPath), l₁.Perm l₂ →
      l₁.Pairwise (fun p q => pathKey p ≠ pathKey q) →
      l₁.Sorted pathLe → l₂.Sorted pathLe → l₁ = l₂ := by
  intro l₁
  induction l₁ with
  | nil =>
    intro l₂ hp _ _ _
    exact (hp.symm.eq_nil).symm
  | cons a t₁ ih =>
    intro l₂ hp hk hs₁ hs₂
    cases l₂ with
    | nil => exact absurd hp.eq_nil (by simp)
    | cons b t₂ =>
      by_cases hab : a = b
      · subst hab
        have ht : t₁ = t₂ := ih t₂ hp.cons_inv (List.pairwise_cons.mp hk).2
          (List.sorted_cons.mp hs₁).2 (List.sorted_cons.mp hs₂).2
        rw [ht]
      · exfalso
        have hat₂ : a ∈ t₂ := by
          have ha : a ∈ b :: t₂ := hp.subset (List.mem_cons_self a t₁)
          rcases List.mem_cons.mp ha with h | h
          · exact absurd h hab
          · exact h
        have hbt₁ : b ∈ t₁ := by
          have hb : b ∈ a :: t₁ := hp.symm.subset (List.mem_cons_self b t₂)
          rcases List.mem_cons.mp hb with h | h
          · exact absurd h.symm hab
          · exact h
        have h1 : pathLe a b := (List.sorted_cons.mp hs₁).1 b hbt₁
        have h2 : pathLe b a := (List.sorted_cons.mp hs₂).1 a hat₂
        exact (List.pairwise_cons.mp hk).1 b hbt₁ (pathLe_antisymm_key h1 h2)

/-- C8 (amended): discovery sorts the matching files by
`(parent-directory name, file name)`, but that key is only a total order
on the discovered *set* when no two distinct files share a key; the
output is independent of the filesystem enumeration order exactly under
that proviso (ties keep enumeration order, because the sort is stable). -/
theorem C8_discovery_order_amended (l₁ l₂ : List PyPath) (hperm : l₁.Perm l₂)
    (hk : (l₁.filter (fun p => matchesDriverName p.base)).Pairwise
      (fun p q => pathKey p ≠ pathKey q)) :
    discoverDrivers l₁ = discoverDrivers l₂ := by
  have hfp : (l₁.filter (fun p => matchesDriverName p.base)).Perm
      (l₂.filter (fun p => matchesDriverName p.base)) := hperm.filter _
  have hsp : (discoverDrivers l₁).Perm (discoverDrivers l₂) := by
    unfold discoverDrivers
    exact ((List.perm_insertionSort pathLe _).trans hfp).trans
      (List.perm_insertionSort pathLe _).symm
  have hk₁ : (discoverDrivers l₁).Pairwise (fun p q => pathKey p ≠ pathKey q) := by
    unfold discoverDrivers
    exact (((List.perm_insertionSort pathLe _).pairwise_iff
      (fun h he => h he.symm)).mpr hk)
  exact sorted_eq_of_perm_of_distinct_keys _ _ hsp hk₁
    (List.sorted_insertionSort pathLe _) (List.sorted_insertionSort pathLe _)

/-- C8 (counterexample): two distinct driver files in different
directories can share the sort key `(parent-directory name, file name)`;
then two enumerations of the same file set produce different discovery
sequences, so the claimed total order and enumeration-independence fail. -/
theorem C8_order_depends_on_enumeration :
    [tiePathA, tiePathB].Perm [tiePathB, tiePathA]
    ∧ tiePathA ≠ tiePathB
    ∧ pathKey tiePathA = pathKey tiePathB
    ∧ discoverDrivers [tiePathA, tiePathB] ≠ discoverDrivers [tiePathB, tiePathA] := by
  refine ⟨List.Perm.swap tiePathB tiePathA [], by decide, by decide, by decide⟩

/-- C8 (witness): on a concrete enumeration pair with pairwise-distinct
keys, the amended theorem applies and both orders discover the same
sequence. -/
theorem C8_discovery_order_witness :
    ([keyPathB, keyPathA].filter (fun p => matchesDriverName p.base)).Pairwise
      (fun p q => pathKey p ≠ pathKey q)
    ∧ discoverDrivers [keyPathB, keyPathA] = discoverDrivers [keyPathA, keyPathB] :=
  ⟨by decide,
   C8_discovery_order_amended [keyPathB, keyPathA] [keyPathA, keyPathB]
     (List.Perm.swap keyPathA keyPathB []) (by decide)⟩

/-- C1 (amended): the root container is opened exactly once on every run
that reaches the report file, and on *normal completion* it is closed
exactly once, as the final write.  The close is not unconditional: an
exception escaping outcome processing skips it (see the counterexample
theorem; the `JUnitXMLFile` context manager in `junit_xml_file.py` would
guarantee it, but `main` does not use that class). -/
theorem C1_root_open_close_amended (inp : MainInput) :
    (inp.mkdirFails = false → (mainRun inp).xmlWrites.count rootOpenLine = 1)
    ∧ ((mainRun inp).exitOk = true →
        (mainRun inp).xmlWrites.count rootOpenLine = 1
        ∧ (mainRun inp).xmlWrites.count rootCloseLine = 1
        ∧ (mainRun inp).xmlWrites.getLast? = some rootCloseLine) := by
  have hdo : (xmlDeclLine == rootOpenLine) = false := by decide
  have hoo : (rootOpenLine == rootOpenLine) = true := by decide
  have hco : (rootCloseLine == rootOpenLine) = false := by decide
  have hdc : (xmlDeclLine == rootCloseLine) = false := by decide
  have hoc : (rootOpenLine == rootCloseLine) = false := by decide
  have hcc : (rootCloseLine == rootCloseLine) = true := by decide
  constructor
  · intro hmk
    rcases mainRun_shape inp with h | ⟨h, hmk'⟩ | ⟨d, ds, hds, h⟩
    · rw [mainRun_exitOk_eq inp h]
      simp [List.count_cons, List.count_append, List.count_singleton',
        count_rootOpen_msgs inp, hdo, hoo, hco]
    · rw [hmk'] at hmk
      exact absurd hmk (by simp)
    · rw [h]
      have hne : ((run_test d (inp.execF d)).1.xmlMsg == rootOpenLine) = false := by
        simp [(run_test_xml_ne_root d (inp.execF d)).1]
      simp [List.count_cons, hdo, hoo, hne]
  · intro hex
    rw [mainRun_exitOk_eq inp hex]
    refine ⟨?_, ?_, ?_⟩
    · simp [List.count_cons, List.count_append, List.count_singleton',
        count_rootOpen_msgs inp, hdo, hoo, hco]
    · simp [List.count_cons, List.count_append, List.count_singleton',
        count_rootClose_msgs inp, hdc, hoc, hcc]
    · rw [show xmlDeclLine :: rootOpenLine :: ((msgsOf inp).map Msg.xmlMsg ++ [rootCloseLine])
          = (xmlDeclLine :: rootOpenLine :: (msgsOf inp).map Msg.xmlMsg) ++ [rootCloseLine] by simp]
      exact List.getLast?_concat _

/-- C1 (counterexample): an interactive run over one (passing) driver
appends one record and then dies with `AttributeError`; the root is
opened but never closed on this exit path. -/
theorem C1_crash_leaves_root_unclosed :
    (mainRun interactiveInput).xmlWrites.count rootOpenLine = 1
    ∧ (mainRun interactiveInput).xmlWrites.count rootCloseLine = 0
    ∧ (mainRun interactiveInput).msgs.length = 1
    ∧ (mainRun interactiveInput).exitOk = false := by decide

/-- C1 (witness): on the concrete non-interactive three-driver run the
hypotheses of the amended theorem hold and the document is balanced. -/
theorem C1_root_open_close_witness :
    (mainRun normalInput).xmlWrites.count rootOpenLine = 1
    ∧ (mainRun normalInput).xmlWrites.count rootCloseLine = 1
    ∧ (mainRun normalInput).xmlWrites.getLast? = some rootCloseLine :=
  ⟨(C1_root_open_close_amended normalInput).1 rfl,
   ((C1_root_open_close_amended normalInput).2 (by decide)).2.1,
   ((C1_root_open_close_amended normalInput).2 (by decide)).2.2⟩

/-- C2 (amended): the exit status of the build step is never read: the run is
literally independent of it, so a failing build aborts nothing — all
discovered tests still execute and a normally-completing run still exits
zero, rather than the claimed immediate abort with no tests run. -/
theorem C2_build_status_ignored_amended :
    (∀ (inp : MainInput) (e : Int), mainRun { inp with makeExit := e } = mainRun inp)
    ∧ (∀ inp : MainInput, inp.makeExit ≠ 0 → inp.mkdirFails = false →
        (inp.verboseFlag = true ∨ inp.isatty = false) →
        (mainRun inp).results.length = (driversOf inp).length
        ∧ (mainRun inp).msgs.length = (driversOf inp).length
        ∧ (mainRun inp).exitOk = true) := by
  constructor
  · intro inp e
    cases inp
    rfl
  · intro inp _ hmk hv
    rw [mainRun_normal inp hmk hv]
    refine ⟨?_, ?_, rfl⟩
    · simp [resultsOf]
    · simp [msgsOf]

/-- C2 (counterexample): with the build step exiting 2, the run still
executes all three tests, writes their records and exits 0. -/
theorem C2_build_failure_does_not_abort :
    buildFailInput.makeExit = 2
    ∧ (mainRun buildFailInput).results.length = 3
    ∧ (mainRun buildFailInput).msgs.length = 3
    ∧ (mainRun buildFailInput).exitOk = true := by decide

/-- C2 (witness). -/
theorem C2_build_status_ignored_witness :
    mainRun { buildFailInput with makeExit := 7 } = mainRun buildFailInput
    ∧ ((mainRun buildFailInput).results.length = (driversOf buildFailInput).length
        ∧ (mainRun buildFailInput).msgs.length = (driversOf buildFailInput).length
        ∧ (mainRun buildFailInput).exitOk = true) :=
  ⟨C2_build_status_ignored_amended.1 buildFailInput 7,
   C2_build_status_ignored_amended.2 buildFailInput (by decide) rfl (Or.inr rfl)⟩

/-- C3: at every point of a run the pass and fail tallies sum to at most
the number of discovered drivers, and on normal completion they sum to
exactly it, with exactly one record per driver in the report document
(header, the records in order, the closing tag). -/
theorem C3_counts_and_record_count (inp : MainInput) (j : Nat) :
    ((mainRun inp).results.take j).count true
        + ((mainRun inp).results.take j).count false ≤ (driversOf inp).length
    ∧ ((mainRun inp).exitOk = true →
        (mainRun inp).results.count true + (mainRun inp).results.count false
            = (driversOf inp).length
        ∧ (mainRun inp).msgs.length = (driversOf inp).length
        ∧ (mainRun inp).xmlWrites =
            xmlDeclLine :: rootOpenLine ::
              ((mainRun inp).msgs.map Msg.xmlMsg ++ [rootCloseLine])) := by
  constructor
  · have h1 := count_true_add_count_false ((mainRun inp).results.take j)
    have h2 : ((mainRun inp).results.take j).length ≤ (mainRun inp).results.length := by
      simp [List.length_take]
    have h3 := mainRun_results_length inp
    omega
  · intro hex
    rw [mainRun_exitOk_eq inp hex]
    refine ⟨?_, ?_, rfl⟩
    · rw [count_true_add_count_false]
      simp [resultsOf]
    · simp [msgsOf]

/-- C3 (witness). -/
theorem C3_counts_witness :
    (((mainRun normalInput).results.take 2).count true
        + ((mainRun normalInput).results.take 2).count false
        ≤ (driversOf normalInput).length)
    ∧ ((mainRun normalInput).results.count true
          + (mainRun normalInput).results.count false = (driversOf normalInput).length
      ∧ (mainRun normalInput).msgs.length = (driversOf normalInput).length
      ∧ (mainRun normalInput).xmlWrites =
          xmlDeclLine :: rootOpenLine ::
            ((mainRun normalInput).msgs.map Msg.xmlMsg ++ [rootCloseLine])) :=
  ⟨(C3_counts_and_record_count normalInput 2).1,
   (C3_counts_and_record_count normalInput 2).2 (by decide)⟩

/-- C5: in interactive mode `empty_log_queue` dispatches to
`progress_bar.test_passed()` / `test_failed()`, attributes the
`ProgressBar` class does not define, so the first consumed outcome
raises `AttributeError` and no counter is ever incremented — while the
method the class *does* define, `update_with_value`, performs exactly
the increment-and-rerender the claim describes. -/
theorem C5_progress_update_attribute_error :
    (empty_log_queue [(run_test exDriver1 ⟨0, "", ""⟩).1] false
        (some (ProgressBar.mk 1 0 0))).err
      = some "AttributeError: ProgressBar object has no attribute test_passed"
    ∧ (empty_log_queue [(run_test exDriver1 ⟨0, "", ""⟩).1] false
        (some (ProgressBar.mk 1 0 0))).bar = some (ProgressBar.mk 1 0 0)
    ∧ ProgressBar.lookupNoArgMethod "test_passed" = none
    ∧ ProgressBar.lookupNoArgMethod "test_failed" = none
    ∧ ProgressBar.update_with_value (ProgressBar.mk 1 0 0) true = ProgressBar.mk 1 1 0
    ∧ ProgressBar.update_with_value (ProgressBar.mk 1 0 0) false = ProgressBar.mk 1 0 1
    ∧ ProgressBar.remainingTests (ProgressBar.mk 3 1 1) = 3 - (1 + 1) := by
  exact ⟨by decide, by decide, rfl, rfl, by decide, by decide, by decide⟩

theorem isPrefixOf_append (a b : List Char) : a.isPrefixOf (a ++ b) = true := by
  induction a with
  | nil => simp [List.isPrefixOf]
  | cons x xs ih => simp [List.isPrefixOf, ih]

theorem isSuffixOf_append (l t : List Char) : l.isSuffixOf (t ++ l) = true := by
  simp [List.isSuffixOf, List.reverse_append, isPrefixOf_append]

/-- For a base name of the form `<stem>.c` with a non-empty stem,
the `pathlib` stem computation returns the stem. -/
theorem pathStem_dotc (l : List Char) (hl : l ≠ []) :
    pathStem ((⟨l⟩ : String) ++ ".c") = (⟨l⟩ : String) := by
  have hdata : ((⟨l⟩ : String) ++ ".c").data = l ++ ['.', 'c'] := rfl
  simp [pathStem, hdata, List.reverse_append, List.takeWhile_cons,
    List.dropWhile_cons, hl, List.reverse_eq_nil_iff]

/-- C7 (amended): a driver file named `<stem>_driver.c` matches the
discovery pattern, and its reported subject name is `<stem>.c` —
*provided* `_driver` occurs nowhere in the stem before its final
occurrence; `str.replace` removes every occurrence, not just the one at
the end. -/
theorem C7_subject_name_amended (s : List Char)
    (hocc : ∀ i, i < s.length →
      "_driver".data.isPrefixOf (List.drop i (s ++ "_driver".data)) = false) :
    matchesDriverName ((⟨s ++ "_driver".data⟩ : String) ++ ".c") = true
    ∧ new_name (pathStem ((⟨s ++ "_driver".data⟩ : String) ++ ".c"))
        = (⟨s⟩ : String) ++ ".c" := by
  constructor
  · unfold matchesDriverName
    have hdata : ((⟨s ++ "_driver".data⟩ : String) ++ ".c").data
        = s ++ "_driver.c".data := by
      show (s ++ "_driver".data) ++ ".c".data = s ++ "_driver.c".data
      rw [List.append_assoc]
      exact congrArg (s ++ ·) (by decide)
    rw [hdata]
    exact isSuffixOf_append _ s
  · rw [pathStem_dotc (s ++ "_driver".data) (by simp)]
    exact new_name_strip_end s hocc

/-- C7 (counterexample): a legitimate driver file whose stem contains the
marker twice; the code removes both occurrences, the claimed
remove-from-the-end-only rule would keep the first. -/
theorem C7_replace_all_occurrences :
    matchesDriverName "foo_driver_bar_driver.c" = true
    ∧ new_name (pathStem "foo_driver_bar_driver.c") = "foo_bar.c"
    ∧ new_name (pathStem "foo_driver_bar_driver.c") ≠ "foo_driver_bar.c" := by
  decide

/-- C7 (witness): `example_driver.c` maps to `example.c`. -/
theorem C7_subject_name_witness :
    matchesDriverName ((⟨"example".data ++ "_driver".data⟩ : String) ++ ".c") = true
    ∧ new_name (pathStem ((⟨"example".data ++ "_driver".data⟩ : String) ++ ".c"))
        = (⟨"example".data⟩ : String) ++ ".c" :=
  C7_subject_name_amended "example".data (by decide)

/-- C4 (amended): `fail_testcase` embeds the diagnostic text verbatim —
no escaping is applied — so whenever the diagnostic contains a reserved
markup character the record differs from the escaped record the spec
demands (and raw markup reaches the document). -/
theorem C4_diagnostic_verbatim_amended (im : String × String) (msg : String) :
    (∃ pre post, (fail_testcase im msg).xmlMsg = pre ++ (msg ++ post))
    ∧ (msg.data.any isReservedChar = true →
        fail_testcase im msg ≠ failTestcaseEscapedSpec im msg) := by
  constructor
  · refine ⟨im.2 ++ "<error type=\"error\" message=\"",
      "\">" ++ msg ++ "</error>\n" ++ "</testcase>\n", ?_⟩
    apply String.ext
    simp [fail_testcase, String.data_append, List.append_assoc]
  · intro hres heq
    have hlen := congrArg (fun m : Msg => m.xmlMsg.data.length) heq
    simp only [fail_testcase, failTestcaseEscapedSpec, specEscape,
      String.data_append, List.length_append] at hlen
    have hgt := length_lt_escFold hres
    omega

/-- C4 (counterexample): the diagnostic `a<b` reaches the record
verbatim; the record is not the escaped record the claim describes. -/
theorem C4_reserved_not_escaped :
    (fail_testcase ("t.c\n", "<testcase name=\"t.c\">\n") "a<b").xmlMsg
      = "<testcase name=\"t.c\">\n<error type=\"error\" message=\"a<b\">a<b</error>\n</testcase>\n"
    ∧ fail_testcase ("t.c\n", "<testcase name=\"t.c\">\n") "a<b"
        ≠ failTestcaseEscapedSpec ("t.c\n", "<testcase name=\"t.c\">\n") "a<b"
    ∧ ("a<b".data.any isReservedChar) = true := by
  decide

/-- C4 (witness). -/
theorem C4_diagnostic_verbatim_witness :
    (∃ pre post,
      (fail_testcase ("t.c\n", "<testcase name=\"t.c\">\n") "x>y").xmlMsg
        = pre ++ ("x>y" ++ post))
    ∧ fail_testcase ("t.c\n", "<testcase name=\"t.c\">\n") "x>y"
        ≠ failTestcaseEscapedSpec ("t.c\n", "<testcase name=\"t.c\">\n") "x>y" :=
  ⟨(C4_diagnostic_verbatim_amended ("t.c\n", "<testcase name=\"t.c\">\n") "x>y").1,
   (C4_diagnostic_verbatim_amended ("t.c\n", "<testcase name=\"t.c\">\n") "x>y").2
     (by decide)⟩

/-- C6 (amended): each test yields exactly one outcome message; the pass
flag is true iff the collaborator exited 0; the outcome is independent
of the captured stderr; on nonzero exit the diagnostic is the captured
*stdout only*, and on zero exit the record carries no diagnostic. -/
theorem C6_outcome_amended (d : PyPath) (r : RunResult) (s : String) :
    ((run_test d r).2 = true ↔ r.returncode = 0)
    ∧ run_test d { r with stderr := s } = run_test d r
    ∧ (r.returncode ≠ 0 → (run_test d r).1 = fail_testcase (initMessage d) r.stdout)
    ∧ (r.returncode = 0 → (run_test d r).1.passed = true
        ∧ (run_test d r).1.xmlMsg = (initMessage d).2 ++ "</testcase>\n") := by
  refine ⟨?_, ?_, ?_, ?_⟩
  · by_cases h : r.returncode = 0 <;> simp [run_test, h]
  · by_cases h : r.returncode = 0 <;> simp [run_test, h]
  · intro h
    simp [run_test, h]
  · intro h
    simp [run_test, h]

/-- C6 (counterexample): with stdout `out` and stderr `err` on a failing
test, the record carries `out` alone — not the combined stdout/stderr
the claim describes. -/
theorem C6_stderr_not_in_diagnostic :
    run_test exDriver2 ⟨1, "out", "err"⟩ ≠ runTestCombinedSpec exDriver2 ⟨1, "out", "err"⟩
    ∧ (run_test exDriver2 ⟨1, "out", "err"⟩).1.printMsg = relName exDriver2 ++ "\n" ++ "out"
    ∧ (run_test exDriver2 ⟨1, "out", "err"⟩).1
        = fail_testcase (initMessage exDriver2) "out" := by
  decide

/-- C6 (witness). -/
theorem C6_outcome_witness :
    ((run_test exDriver2 ⟨1, "out", "err"⟩).2 = true ↔ (1 : Int) = 0)
    ∧ run_test exDriver2 ⟨1, "out", "other"⟩ = run_test exDriver2 ⟨1, "out", "err"⟩
    ∧ (run_test exDriver2 ⟨1, "out", "err"⟩).1
        = fail_testcase (initMessage exDriver2) "out" :=
  ⟨(C6_outcome_amended exDriver2 ⟨1, "out", "err"⟩ "other").1,
   (C6_outcome_amended exDriver2 ⟨1, "out", "err"⟩ "other").2.1,
   (C6_outcome_amended exDriver2 ⟨1, "out", "err"⟩ "other").2.2.1 (by decide)⟩

/-- C9 (amended): on normal completion the one-line summary
`"\n>> Test Summary: P Passed, F Failed"` — with no `Total` field — is
printed and the process exits 0 whatever the individual results; if the
output directory cannot be prepared the process dies with no summary.
(A failing build step does *not* cause a nonzero exit; its status is
never read.) -/
theorem C9_summary_exit_amended (inp : MainInput) :
    ((mainRun inp).exitOk = true →
      (mainRun inp).summary = some (summaryLine ((mainRun inp).results.count true)
        ((driversOf inp).length - (mainRun inp).results.count true)))
    ∧ (inp.mkdirFails = true →
        (mainRun inp).exitOk = false ∧ (mainRun inp).summary = none) := by
  constructor
  · intro hex
    rw [mainRun_exitOk_eq inp hex]
  · intro hmk
    simp [mainRun, hmk]

/-- C9 (counterexample): the printed summary has no `T Total` component,
and a run whose build step exited nonzero still exits 0. -/
theorem C9_summary_has_no_total :
    (mainRun buildFailInput).summary = some "\n>> Test Summary: 2 Passed, 1 Failed"
    ∧ (mainRun buildFailInput).summary ≠ some (summaryLineClaim 2 1 3)
    ∧ containsSeq "Total".data "\n>> Test Summary: 2 Passed, 1 Failed".data = false
    ∧ (mainRun buildFailInput).exitOk = true := by
  decide

/-- C9 (witness). -/
theorem C9_summary_exit_witness :
    ((mainRun normalInput).summary = some (summaryLine
        ((mainRun normalInput).results.count true)
        ((driversOf normalInput).length - (mainRun normalInput).results.count true)))
    ∧ ((mainRun mkdirFailInput).exitOk = false
        ∧ (mainRun mkdirFailInput).summary = none) :=
  ⟨(C9_summary_exit_amended normalInput).1 (by decide),
   (C9_summary_exit_amended mkdirFailInput).2 rfl⟩

theorem count_true_map_passed (ms : List Msg) :
    (ms.map Msg.passed).count true = ms.countP (fun m => m.passed) := by
  induction ms with
  | nil => rfl
  | cons m ms ih => cases hm : m.passed <;> simp [List.count_cons, List.countP_cons, hm, ih]

/-- C10: the boolean `run_test` returns always equals the pass flag of
the one message it enqueues; hence over a normally-completing run the
collected results are exactly the consumed messages' flags, and the
summary counts agree with the number of passing records in the report. -/
theorem C10_result_flag_agreement :
    (∀ (d : PyPath) (r : RunResult), (run_test d r).2 = (run_test d r).1.passed)
    ∧ (∀ inp : MainInput, (mainRun inp).exitOk = true →
        (mainRun inp).results = (mainRun inp).msgs.map Msg.passed
        ∧ (mainRun inp).results.count true
            = (mainRun inp).msgs.countP (fun m => m.passed)
        ∧ (mainRun inp).summary = some (summaryLine
            ((mainRun inp).msgs.countP (fun m => m.passed))
            ((mainRun inp).msgs.length
              - (mainRun inp).msgs.countP (fun m => m.passed)))) := by
  have hflag : ∀ (d : PyPath) (r : RunResult),
      (run_test d r).2 = (run_test d r).1.passed := by
    intro d r
    by_cases h : r.returncode = 0 <;> simp [run_test, h, fail_testcase]
  refine ⟨hflag, ?_⟩
  intro inp hex
  have hmap : resultsOf inp = (msgsOf inp).map Msg.passed := by
    unfold resultsOf msgsOf
    rw [List.map_map]
    apply List.map_congr_left
    intro d _
    exact hflag d (inp.execF d)
  have hcnt := count_true_map_passed (msgsOf inp)
  have hlen : (msgsOf inp).length = (driversOf inp).length := by simp [msgsOf]
  rw [mainRun_exitOk_eq inp hex]
  refine ⟨hmap, ?_, ?_⟩
  · show (resultsOf inp).count true = (msgsOf inp).countP (fun m => m.passed)
    rw [hmap]
    exact hcnt
  · show some (summaryLine ((resultsOf inp).count true)
        ((driversOf inp).length - (resultsOf inp).count true))
      = some (summaryLine ((msgsOf inp).countP (fun m => m.passed))
        ((msgsOf inp).length - (msgsOf inp).countP (fun m => m.passed)))
    rw [hmap, hcnt, hlen]

/-- C10 (witness). -/
theorem C10_result_flag_witness :
    (run_test exDriver2 ⟨1, "out", "err"⟩).2
        = (run_test exDriver2 ⟨1, "out", "err"⟩).1.passed
    ∧ ((mainRun normalInput).results = (mainRun normalInput).msgs.map Msg.passed
      ∧ (mainRun normalInput).results.count true
          = (mainRun normalInput).msgs.countP (fun m => m.passed)
      ∧ (mainRun normalInput).summary = some (summaryLine
          ((mainRun normalInput).msgs.countP (fun m => m.passed))
          ((mainRun normalInput).msgs.length
            - (mainRun normalInput).msgs.countP (fun m => m.passed)))) :=
  ⟨C10_result_flag_agreement.1 exDriver2 ⟨1, "out", "err"⟩,
   C10_result_flag_agreement.2 normalInput (by decide)⟩
